import Mathlib

/-!
Verification of the Cloudflare remote MCP server (`src/index.ts`, two
transport variants: an HTTP-streamable worker and a WebSocket worker
backed by the same Durable Object).  The development shallowly embeds the
JSON values the transports exchange, the JavaScript `JSON.parse` /
`JSON.stringify` functions the handlers call, the capability handlers
(tools, resources, prompts), the two transport entry points
(`fetch` POST `/mcp` branch and `webSocketMessage`), and the WebSocket
session-set operations (`acceptWebSocket`, `webSocketClose`,
`webSocketError`).
-/

namespace MCP

/-- JSON values as produced by JavaScript `JSON.parse`.  Numbers are
modelled as rationals (the repository only ever handles numeric values
that are exact in double precision, e.g. small integers). -/
inductive Json where
  | null : Json
  | bool (b : Bool) : Json
  | num (q : ℚ) : Json
  | str (s : String) : Json
  | arr (elems : List Json) : Json
  | obj (fields : List (String × Json)) : Json

/-- Property lookup on a parsed JSON object.  JavaScript object literals
built by `JSON.parse` keep the LAST occurrence of a duplicated key, hence
the left fold that lets later bindings overwrite earlier ones. -/
def fieldLookup (fields : List (String × Json)) (key : String) : Option Json :=
  fields.foldl (fun acc kv => if kv.1 = key then some kv.2 else acc) none

/-- JavaScript truthiness of a JSON value (used by the `||` operator in
`parsedMessage.id || null`). -/
def jsTruthy : Json → Bool
  | Json.null => false
  | Json.bool b => b
  | Json.num q => if q = 0 then false else true
  | Json.str s => if s = "" then false else true
  | Json.arr _ => true
  | Json.obj _ => true

/-- Skip JSON whitespace. -/
def skipWs : List Char → List Char
  | [] => []
  | c :: rest =>
    if c = ' ' ∨ c = '\n' ∨ c = '\t' ∨ c = '\r' then skipWs rest else c :: rest

/-- Value of a hexadecimal digit. -/
def hexVal (c : Char) : Option Nat :=
  if c.isDigit then some (c.toNat - 48)
  else if 'a' ≤ c ∧ c ≤ 'f' then some (c.toNat - 87)
  else if 'A' ≤ c ∧ c ≤ 'F' then some (c.toNat - 55)
  else none

/-- Decode one JSON string escape sequence (the character after the
backslash together with the remaining input). -/
def parseEscape : List Char → Option (Char × List Char)
  | [] => none
  | c :: rest =>
    if c = '"' then some ('"', rest)
    else if c = '\\' then some ('\\', rest)
    else if c = '/' then some ('/', rest)
    else if c = 'b' then some ('\x08', rest)
    else if c = 'f' then some ('\x0c', rest)
    else if c = 'n' then some ('\n', rest)
    else if c = 'r' then some ('\r', rest)
    else if c = 't' then some ('\t', rest)
    else if c = 'u' then
      match rest with
      | h1 :: h2 :: h3 :: h4 :: rest2 =>
        match hexVal h1, hexVal h2, hexVal h3, hexVal h4 with
        | some a, some b, some c2, some d =>
          some (Char.ofNat (((a * 16 + b) * 16 + c2) * 16 + d), rest2)
        | _, _, _, _ => none
      | _ => none
    else none

/-- Parse the body of a JSON string (after the opening quote), fuelled by
the length of the remaining input. -/
def parseStringBody : Nat → List Char → Option (String × List Char)
  | 0, _ => none
  | _, [] => none
  | fuel + 1, c :: rest =>
    if c = '"' then some ("", rest)
    else if c = '\\' then
      match parseEscape rest with
      | none => none
      | some (e, r2) =>
        match parseStringBody fuel r2 with
        | none => none
        | some (s, r3) => some (e.toString ++ s, r3)
    else if c.toNat < 32 then none
    else
      match parseStringBody fuel rest with
      | none => none
      | some (s, r2) => some (c.toString ++ s, r2)

/-- Numeric value of a list of decimal digits. -/
def digitsVal (ds : List Char) : ℕ :=
  ds.foldl (fun a c => a * 10 + (c.toNat - 48)) 0

/-- Parse the optional exponent digits of a JSON number (after `e`/`E`). -/
def parseExpDigits (r : List Char) : Option (ℤ × List Char) :=
  let (esign, r1) : ℤ × List Char :=
    match r with
    | '+' :: rr => (1, rr)
    | '-' :: rr => (-1, rr)
    | _ => (1, r)
  let (ds, r2) := r1.span (fun d => d.isDigit)
  if ds.isEmpty then none else some (esign * (digitsVal ds : ℤ), r2)

/-- Parse the fraction and exponent of a JSON number, given its sign and
integer part.  The value is assembled as a decimal mantissa and a power
of ten and only converted to `ℚ` at the very end (via `Rat.divInt`, which
reduces in the kernel, unlike the irreducible `ℚ` field operations). -/
def parseNumTail (neg : Bool) (ipart : ℕ) (r : List Char) : Option (Json × List Char) :=
  let fracStep : Option ((ℕ × ℤ) × List Char) :=
    match r with
    | '.' :: rf =>
      let (ds, rr) := rf.span (fun d => d.isDigit)
      if ds.isEmpty then none
      else some ((ipart * 10 ^ ds.length + digitsVal ds, -(ds.length : ℤ)), rr)
    | _ => some ((ipart, 0), r)
  match fracStep with
  | none => none
  | some ((mant, scale), r2) =>
    let expStep : Option (ℤ × List Char) :=
      match r2 with
      | 'e' :: re => parseExpDigits re
      | 'E' :: re => parseExpDigits re
      | _ => some (0, r2)
    match expStep with
    | none => none
    | some (ex, r3) =>
      let sMant : ℤ := if neg then -(mant : ℤ) else (mant : ℤ)
      let sc : ℤ := scale + ex
      let q : ℚ :=
        if 0 ≤ sc then Rat.divInt (sMant * (10 : ℤ) ^ sc.toNat) 1
        else Rat.divInt sMant ((10 : ℤ) ^ (-sc).toNat)
      some (Json.num q, r3)

/-- Parse a JSON number (JSON grammar: optional minus, `0` or a nonzero
digit followed by digits, optional fraction, optional exponent). -/
def parseNumberFrom (cs : List Char) : Option (Json × List Char) :=
  let signStep : Bool × List Char :=
    match cs with
    | '-' :: r => (true, r)
    | _ => (false, cs)
  match signStep with
  | (neg, cs1) =>
    match cs1 with
    | '0' :: r1 => parseNumTail neg 0 r1
    | c :: _ =>
      if c.isDigit then
        let (ds, r1) := cs1.span (fun d => d.isDigit)
        parseNumTail neg (digitsVal ds) r1
      else none
    | [] => none

mutual

/-- Parse one JSON value, fuelled. -/
def parseValue : Nat → List Char → Option (Json × List Char)
  | 0, _ => none
  | fuel + 1, cs =>
    match cs with
    | 'n' :: 'u' :: 'l' :: 'l' :: rest => some (Json.null, rest)
    | 't' :: 'r' :: 'u' :: 'e' :: rest => some (Json.bool true, rest)
    | 'f' :: 'a' :: 'l' :: 's' :: 'e' :: rest => some (Json.bool false, rest)
    | '"' :: rest =>
      match parseStringBody (rest.length + 1) rest with
      | some (s, r) => some (Json.str s, r)
      | none => none
    | '[' :: rest =>
      match skipWs rest with
      | ']' :: r2 => some (Json.arr [], r2)
      | r2 =>
        match parseElements fuel r2 with
        | some (xs, r3) => some (Json.arr xs, r3)
        | none => none
    | '\x7b' :: rest =>
      match skipWs rest with
      | '\x7d' :: r2 => some (Json.obj [], r2)
      | r2 =>
        match parseMembers fuel r2 with
        | some (fs, r3) => some (Json.obj fs, r3)
        | none => none
    | _ => parseNumberFrom cs

/-- Parse the elements of a non-empty JSON array (whitespace already
skipped before the first element). -/
def parseElements : Nat → List Char → Option (List Json × List Char)
  | 0, _ => none
  | fuel + 1, cs =>
    match parseValue fuel cs with
    | none => none
    | some (v, r) =>
      match skipWs r with
      | ',' :: r2 =>
        match parseElements fuel (skipWs r2) with
        | some (xs, r3) => some (v :: xs, r3)
        | none => none
      | ']' :: r2 => some ([v], r2)
      | _ => none

/-- Parse the members of a non-empty JSON object (whitespace already
skipped before the first key). -/
def parseMembers : Nat → List Char → Option (List (String × Json) × List Char)
  | 0, _ => none
  | fuel + 1, cs =>
    match cs with
    | '"' :: rest =>
      match parseStringBody (rest.length + 1) rest with
      | none => none
      | some (k, r) =>
        match skipWs r with
        | ':' :: r2 =>
          match parseValue fuel (skipWs r2) with
          | none => none
          | some (v, r3) =>
            match skipWs r3 with
            | ',' :: r4 =>
              match parseMembers fuel (skipWs r4) with
              | some (fs, r5) => some ((k, v) :: fs, r5)
              | none => none
            | '\x7d' :: r4 => some ([(k, v)], r4)
            | _ => none
        | _ => none
    | _ => none

end

/-- The JavaScript `JSON.parse`: parse a full string as one JSON value,
rejecting trailing garbage.  `none` models a thrown `SyntaxError`. -/
def jsonParse (s : String) : Option Json :=
  match parseValue (s.length + 1) (skipWs s.toList) with
  | some (v, rest) => if (skipWs rest).isEmpty then some v else none
  | none => none

/-- Decimal digits of the fractional part of a rational in `[0, 1)`,
used to render non-integral numbers the way JavaScript string
interpolation does. -/
def fracDigitsAux : Nat → ℚ → String
  | 0, _ => ""
  | n + 1, q =>
    if q = 0 then ""
    else
      let d : ℤ := ⌊q * 10⌋
      toString d ++ fracDigitsAux n (q * 10 - (d : ℚ))

/-- How JavaScript template interpolation renders a number (exact for the
integral values the repository actually produces). -/
def numToString (q : ℚ) : String :=
  if q.den = 1 then toString q.num
  else
    let a : ℚ := if q < 0 then -q else q
    (if q < 0 then "-" else "") ++ toString ⌊a⌋ ++ "." ++ fracDigitsAux 40 (a - (⌊a⌋ : ℚ))

/-- Two-digit lowercase hex rendering of a byte, for `\u00XX` escapes. -/
def hexDigit (n : Nat) : String :=
  String.singleton (if n < 10 then Char.ofNat (48 + n) else Char.ofNat (87 + n))

/-- Escape one character of a JSON string the way `JSON.stringify` does. -/
def escapeStringChar (c : Char) : String :=
  if c = '"' then "\\\""
  else if c = '\\' then "\\\\"
  else if c = '\n' then "\\n"
  else if c = '\r' then "\\r"
  else if c = '\t' then "\\t"
  else if c = '\x08' then "\\b"
  else if c = '\x0c' then "\\f"
  else if c.toNat < 32 then "\\u00" ++ hexDigit (c.toNat / 16) ++ hexDigit (c.toNat % 16)
  else c.toString

/-- Quote and escape a string as a JSON string literal. -/
def quoteJsonString (s : String) : String :=
  "\"" ++ String.join (s.toList.map escapeStringChar) ++ "\""

mutual

/-- The JavaScript `JSON.stringify` (compact form, as used on the wire by
both transports; the resource payload texts in the source use an
indent of 2, which no claim observes, so serialization is modelled
compactly throughout). -/
def stringifyJson : Json → String
  | Json.null => "null"
  | Json.bool true => "true"
  | Json.bool false => "false"
  | Json.num q => numToString q
  | Json.str s => quoteJsonString s
  | Json.arr xs => "[" ++ stringifyArr xs ++ "]"
  | Json.obj fs => "\x7b" ++ stringifyObj fs ++ "\x7d"

/-- Serialize array elements, comma-separated. -/
def stringifyArr : List Json → String
  | [] => ""
  | [x] => stringifyJson x
  | x :: xs => stringifyJson x ++ "," ++ stringifyArr xs

/-- Serialize object members, comma-separated. -/
def stringifyObj : List (String × Json) → String
  | [] => ""
  | [kv] => quoteJsonString kv.1 ++ ":" ++ stringifyJson kv.2
  | kv :: fs => quoteJsonString kv.1 ++ ":" ++ stringifyJson kv.2 ++ "," ++ stringifyObj fs

end

/-- The ambient nondeterministic inputs a handler invocation can read:
the wall clock (`new Date().toISOString()`) and one draw of
`Math.random()`. -/
structure World where
  now : String
  rand : ℚ

/-- The `random_number` tool's computation
(`Math.floor(Math.random() * (max - min + 1)) + min`). -/
def randomNumber (mn mx u : ℚ) : ℚ :=
  (⌊u * (mx - mn + 1)⌋ : ℚ) + mn

/-- Wrap a tool's string output as the dispatcher does:
`contentOf t = (content: [(type: "text", text: t)])`. -/
def toolTextResult (t : String) : Json :=
  Json.obj [("content", Json.arr [Json.obj [("type", Json.str "text"), ("text", Json.str t)]])]

/-- The zod schema `z.object((text: z.string())).parse(args)` of the
`echo` tool; a thrown `ZodError` is modelled as `Except.error`. -/
def zodEchoParse : Option Json → Except String String
  | some (Json.obj fs) =>
    match fieldLookup fs "text" with
    | some (Json.str t) => Except.ok t
    | _ => Except.error "Invalid arguments for echo: text must be a string"
  | _ => Except.error "Invalid arguments for echo: expected object"

/-- The zod schema `z.object((min: z.number(), max: z.number()))` of the
`random_number` tool. -/
def zodMinMaxParse : Option Json → Except String (ℚ × ℚ)
  | some (Json.obj fs) =>
    match fieldLookup fs "min", fieldLookup fs "max" with
    | some (Json.num mn), some (Json.num mx) => Except.ok (mn, mx)
    | _, _ => Except.error "Invalid arguments for random_number: min and max must be numbers"
  | _ => Except.error "Invalid arguments for random_number: expected object"

/-- The `CallToolRequestSchema` handler's `switch (name)` over the three
registered tools; the `default` branch throws `Unknown tool: <name>`. -/
def callToolHandler (w : World) (name : String) (args : Option Json) : Except String Json :=
  if name = "echo" then
    match zodEchoParse args with
    | Except.error e => Except.error e
    | Except.ok text => Except.ok (toolTextResult ("Echo: " ++ text))
  else if name = "get_time" then
    Except.ok (toolTextResult ("Current time: " ++ w.now))
  else if name = "random_number" then
    match zodMinMaxParse args with
    | Except.error e => Except.error e
    | Except.ok (mn, mx) =>
      Except.ok (toolTextResult ("Random number between " ++ numToString mn ++ " and " ++
        numToString mx ++ ": " ++ numToString (randomNumber mn mx w.rand)))
  else
    Except.error ("Unknown tool: " ++ name)

/-- The `cloudflare://worker-info` resource payload. -/
def workerInfoJson (now : String) : Json :=
  Json.obj [("name", Json.str "Cloudflare MCP Server"), ("version", Json.str "1.0.0"),
    ("runtime", Json.str "Cloudflare Workers"), ("timestamp", Json.str now),
    ("features", Json.arr [Json.str "tools", Json.str "resources", Json.str "prompts"])]

/-- The `cloudflare://sample-data` resource payload. -/
def sampleDataJson (now : String) : Json :=
  Json.obj [("items", Json.arr [
      Json.obj [("id", Json.num 1), ("name", Json.str "Item 1"), ("value", Json.str "Value 1")],
      Json.obj [("id", Json.num 2), ("name", Json.str "Item 2"), ("value", Json.str "Value 2")],
      Json.obj [("id", Json.num 3), ("name", Json.str "Item 3"), ("value", Json.str "Value 3")]]),
    ("metadata", Json.obj [("total", Json.num 3), ("generated", Json.str now)])]

/-- The `ReadResourceRequestSchema` handler's `switch (uri)`; the
`default` branch throws `Unknown resource: <uri>`. -/
def readResourceHandler (w : World) (uri : String) : Except String Json :=
  if uri = "cloudflare://worker-info" then
    Except.ok (Json.obj [("contents", Json.arr [Json.obj [("uri", Json.str uri),
      ("mimeType", Json.str "application/json"),
      ("text", Json.str (stringifyJson (workerInfoJson w.now)))]])])
  else if uri = "cloudflare://sample-data" then
    Except.ok (Json.obj [("contents", Json.arr [Json.obj [("uri", Json.str uri),
      ("mimeType", Json.str "application/json"),
      ("text", Json.str (stringifyJson (sampleDataJson w.now)))]])])
  else
    Except.error ("Unknown resource: " ++ uri)

/-- The zod schema of the `explain_code` prompt
(`code` required string, `language` optional string). -/
def zodExplainParse : Option Json → Except String (String × Option String)
  | some (Json.obj fs) =>
    match fieldLookup fs "code" with
    | some (Json.str c) =>
      match fieldLookup fs "language" with
      | some (Json.str l) => Except.ok (c, some l)
      | none => Except.ok (c, none)
      | _ => Except.error "Invalid arguments for explain_code: language must be a string"
    | _ => Except.error "Invalid arguments for explain_code: code must be a string"
  | _ => Except.error "Invalid arguments for explain_code: expected object"

/-- The zod schema of the `debug_help` prompt
(`error` required string, `context` optional string). -/
def zodDebugParse : Option Json → Except String (String × Option String)
  | some (Json.obj fs) =>
    match fieldLookup fs "error" with
    | some (Json.str e) =>
      match fieldLookup fs "context" with
      | some (Json.str c) => Except.ok (e, some c)
      | none => Except.ok (e, none)
      | _ => Except.error "Invalid arguments for debug_help: context must be a string"
    | _ => Except.error "Invalid arguments for debug_help: error must be a string"
  | _ => Except.error "Invalid arguments for debug_help: expected object"

/-- Wrap a prompt's text as the source does. -/
def promptResult (description text : String) : Json :=
  Json.obj [("description", Json.str description),
    ("messages", Json.arr [Json.obj [("role", Json.str "user"),
      ("content", Json.obj [("type", Json.str "text"), ("text", Json.str text)])]])]

/-- The `GetPromptRequestSchema` handler's `switch (name)`; the `default`
branch throws `Unknown prompt: <name>`.  The `language || "code"` and
`language || ""` fallbacks use JavaScript truthiness, so an empty string
also falls back. -/
def getPromptHandler (name : String) (args : Option Json) : Except String Json :=
  if name = "explain_code" then
    match zodExplainParse args with
    | Except.error e => Except.error e
    | Except.ok (code, language) =>
      let lang1 := match language with
        | some l => if l = "" then "code" else l
        | none => "code"
      let lang2 := match language with
        | some l => l
        | none => ""
      Except.ok (promptResult "Explain how this code works"
        ("Please explain how this " ++ lang1 ++ " works:\n\n```" ++ lang2 ++ "\n" ++ code ++
          "\n```\n\nBreak down the logic and explain what each part does."))
  else if name = "debug_help" then
    match zodDebugParse args with
    | Except.error e => Except.error e
    | Except.ok (err, context) =>
      let ctxPart := match context with
        | some c => if c = "" then "" else "Additional context: " ++ c ++ "\n\n"
        | none => ""
      Except.ok (promptResult "Help debug this issue"
        ("I\x27m encountering this error: " ++ err ++ "\n\n" ++ ctxPart ++
          "Can you help me understand what\x27s causing this issue and how to fix it?"))
  else
    Except.error ("Unknown prompt: " ++ name)

/-- The static `tools/list` catalog. -/
def toolsListResult : Json :=
  Json.obj [("tools", Json.arr [
    Json.obj [("name", Json.str "echo"), ("description", Json.str "Echo back the input text"),
      ("inputSchema", Json.obj [("type", Json.str "object"),
        ("properties", Json.obj [("text", Json.obj [("type", Json.str "string"),
          ("description", Json.str "Text to echo back")])]),
        ("required", Json.arr [Json.str "text"])])],
    Json.obj [("name", Json.str "get_time"), ("description", Json.str "Get the current time"),
      ("inputSchema", Json.obj [("type", Json.str "object"),
        ("properties", Json.obj [])])],
    Json.obj [("name", Json.str "random_number"),
      ("description", Json.str "Generate a random number between min and max"),
      ("inputSchema", Json.obj [("type", Json.str "object"),
        ("properties", Json.obj [
          ("min", Json.obj [("type", Json.str "number"), ("description", Json.str "Minimum value")]),
          ("max", Json.obj [("type", Json.str "number"), ("description", Json.str "Maximum value")])]),
        ("required", Json.arr [Json.str "min", Json.str "max"])])]])]

/-- The static `resources/list` catalog. -/
def resourcesListResult : Json :=
  Json.obj [("resources", Json.arr [
    Json.obj [("uri", Json.str "cloudflare://worker-info"),
      ("name", Json.str "Worker Information"),
      ("description", Json.str "Information about this Cloudflare Worker"),
      ("mimeType", Json.str "application/json")],
    Json.obj [("uri", Json.str "cloudflare://sample-data"),
      ("name", Json.str "Sample Data"),
      ("description", Json.str "Sample JSON data for testing"),
      ("mimeType", Json.str "application/json")]])]

/-- The static `prompts/list` catalog. -/
def promptsListResult : Json :=
  Json.obj [("prompts", Json.arr [
    Json.obj [("name", Json.str "explain_code"),
      ("description", Json.str "Explain how a piece of code works"),
      ("arguments", Json.arr [
        Json.obj [("name", Json.str "code"), ("description", Json.str "The code to explain"),
          ("required", Json.bool true)],
        Json.obj [("name", Json.str "language"),
          ("description", Json.str "The programming language"),
          ("required", Json.bool false)]])],
    Json.obj [("name", Json.str "debug_help"), ("description", Json.str "Help debug an issue"),
      ("arguments", Json.arr [
        Json.obj [("name", Json.str "error"),
          ("description", Json.str "The error message or description"),
          ("required", Json.bool true)],
        Json.obj [("name", Json.str "context"),
          ("description", Json.str "Additional context about the problem"),
          ("required", Json.bool false)]])]])]

/-- Modelled from the spec (§4.1): method routing of the dispatcher to
the six registered request handlers. -/
def dispatchMethod (w : World) (m : String) (params : Option Json) : Except String Json :=
  if m = "tools/list" then Except.ok toolsListResult
  else if m = "tools/call" then
    match params with
    | some (Json.obj ps) =>
      match fieldLookup ps "name" with
      | some (Json.str name) => callToolHandler w name (fieldLookup ps "arguments")
      | _ => Except.error "Invalid params: name required"
    | _ => Except.error "Invalid params: params required"
  else if m = "resources/list" then Except.ok resourcesListResult
  else if m = "resources/read" then
    match params with
    | some (Json.obj ps) =>
      match fieldLookup ps "uri" with
      | some (Json.str uri) => readResourceHandler w uri
      | _ => Except.error "Invalid params: uri required"
    | _ => Except.error "Invalid params: params required"
  else if m = "prompts/list" then Except.ok promptsListResult
  else if m = "prompts/get" then
    match params with
    | some (Json.obj ps) =>
      match fieldLookup ps "name" with
      | some (Json.str name) => getPromptHandler name (fieldLookup ps "arguments")
      | _ => Except.error "Invalid params: name required"
    | _ => Except.error "Invalid params: params required"
  else Except.error ("Method not found: " ++ m)

/-- Modelled from the spec: the protocol dispatcher backing
`this.server.handleRequest(jsonRpcMessage)`.  The `Server` class comes
from the external `@modelcontextprotocol/sdk` package and is not part of
this repository; per §4.1 of the spec its contract is
`dispatch(envelope) -> ResponseEnvelope | null`: it returns `null`
(here `Except.ok none`) for notification-shaped input (per §3 a
notification is an envelope whose `id` is absent or null), routes the six
request methods to the registry handlers registered in
`createMCPServer`, wraps a handler result as a `result` envelope, and
lets any handler-level fault (`Except.error`) propagate to the top-level
catch of the calling transport.  Input that is not an envelope at all
(not a JSON object, or without a string `method`) cannot be routed and
faults. -/
def handleRequest (w : World) (msg : Json) : Except String (Option Json) :=
  match msg with
  | Json.obj fields =>
    match fieldLookup fields "id" with
    | none => Except.ok none
    | some Json.null => Except.ok none
    | some idv =>
      match fieldLookup fields "method" with
      | some (Json.str m) =>
        match dispatchMethod w m (fieldLookup fields "params") with
        | Except.ok result =>
          Except.ok (some (Json.obj [("jsonrpc", Json.str "2.0"), ("id", idv),
            ("result", result)]))
        | Except.error e => Except.error e
      | _ => Except.error "Invalid request: no method"
  | _ => Except.error "Invalid request: not an object"

/-- The error envelope both transports build in their catch branches:
code `-32603`, message `"Internal error"`, and the fault description in
`data`. -/
def errorEnvelope (idv : Json) (data : String) : Json :=
  Json.obj [("jsonrpc", Json.str "2.0"), ("id", idv),
    ("error", Json.obj [("code", Json.num (-32603)), ("message", Json.str "Internal error"),
      ("data", Json.str data)])]

/-- An inbound WebSocket frame (`message: string | ArrayBuffer`). -/
inductive WsFrame where
  | text (s : String) : WsFrame
  | binary (data : List Nat) : WsFrame

/-- JavaScript string coercion of `message as string` inside
`JSON.parse(...)`: an `ArrayBuffer` coerces to the fixed string
`"[object ArrayBuffer]"` regardless of its contents. -/
def frameToString : WsFrame → String
  | WsFrame.text s => s
  | WsFrame.binary _ => "[object ArrayBuffer]"

/-- An outbound effect of `webSocketMessage`: either `ws.send(...)` of a
response object (serialized with `stringifyJson` on the wire) or
`ws.close(code, reason)`. -/
inductive WsOut where
  | send (response : Json) : WsOut
  | close (code : Nat) (reason : String) : WsOut

/-- The id recovery `parsedMessage.id || null` in the catch branch of
`webSocketMessage`.  `none` models the `TypeError` thrown by a property
access on `null`; JavaScript `||` replaces every falsy id (including a
recovered id of `0`) by `null`. -/
def recoverId : Json → Option Json
  | Json.null => none
  | Json.obj fs =>
    some (match fieldLookup fs "id" with
      | some v => if jsTruthy v then v else Json.null
      | none => Json.null)
  | _ => some Json.null

/-- The `webSocketMessage` handler of the Durable Object: the `try` block
rejects non-string frames, parses the frame, hands it to the dispatcher
and sends a non-null response; the `catch` block re-parses the coerced
frame to recover an id and send an error envelope, and closes the
connection with `1011 "Internal error"` when that inner attempt throws
as well. -/
def webSocketMessage (w : World) (message : WsFrame) : List WsOut :=
  let attempt : Except String (List WsOut) :=
    match message with
    | WsFrame.binary _ => Except.error "Expected string message"
    | WsFrame.text s =>
      match jsonParse s with
      | none => Except.error "Unexpected token in JSON"
      | some jm =>
        match handleRequest w jm with
        | Except.error e => Except.error e
        | Except.ok none => Except.ok []
        | Except.ok (some r) => Except.ok [WsOut.send r]
  match attempt with
  | Except.ok outs => outs
  | Except.error e =>
    match jsonParse (frameToString message) with
    | none => [WsOut.close 1011 "Internal error"]
    | some pm =>
      match recoverId pm with
      | none => [WsOut.close 1011 "Internal error"]
      | some idv => [WsOut.send (errorEnvelope idv e)]

/-- The outcome of the `POST /mcp` branch of the HTTP-streamable worker's
`fetch`: either a 200 event-stream response (the written `data:` frames
plus the fact that the writer was closed) or, from the catch branch, a
plain JSON error body with an HTTP status. -/
inductive HttpOut where
  | stream (frames : List String) (writerClosed : Bool) : HttpOut
  | errorResponse (status : Nat) (body : Json) : HttpOut

/-- One server-sent event frame exactly as written by the source:
`data: <JSON>` followed by a blank line. -/
def sseFrame (j : Json) : String :=
  "data: " ++ stringifyJson j ++ "\n\n"

/-- The `POST /mcp` branch of `fetch`: parse the body, resolve one
response envelope through the Durable Object's dispatcher, emit it (if
non-null) as a single SSE frame and close the stream; any fault is
caught and returned as HTTP 500 with an error-envelope JSON body
(`id: null`). -/
def httpMcpPost (w : World) (body : String) : HttpOut :=
  match jsonParse body with
  | none => HttpOut.errorResponse 500 (errorEnvelope Json.null "Unexpected token in JSON")
  | some j =>
    match handleRequest w j with
    | Except.error e => HttpOut.errorResponse 500 (errorEnvelope Json.null e)
    | Except.ok none => HttpOut.stream [] true
    | Except.ok (some resp) => HttpOut.stream [sseFrame resp] true

/-- The unsolicited notification pushed right after a WebSocket is
accepted. -/
def initializedMsg : Json :=
  Json.obj [("jsonrpc", Json.str "2.0"), ("method", Json.str "notifications/initialized"),
    ("params", Json.obj [])]

/-- The `acceptWebSocket` path: add the connection to the session set,
accept it, and push exactly one `notifications/initialized` frame. -/
def acceptWebSocket (sessions : Finset ℕ) (ws : ℕ) : Finset ℕ × List WsOut :=
  (insert ws sessions, [WsOut.send initializedMsg])

/-- The `webSocketClose` handler: remove the connection from the session
set (the code and reason are logged and otherwise opaque). -/
def webSocketClose (sessions : Finset ℕ) (ws : ℕ) (_code : Nat) (_reason : String) : Finset ℕ :=
  sessions.erase ws

/-- The `webSocketError` handler: remove the connection from the session
set (the error is logged and otherwise opaque). -/
def webSocketError (sessions : Finset ℕ) (ws : ℕ) (_error : String) : Finset ℕ :=
  sessions.erase ws

/-- A whole socket conversation, as sequenced by the host: the accept
path runs (and its outbound frames are flushed) before any client frame
is handled, then the inbound frames are processed one at a time. -/
def runConnection (w : World) (sessions : Finset ℕ) (ws : ℕ) (msgs : List WsFrame) :
    Finset ℕ × List WsOut :=
  let accepted := acceptWebSocket sessions ws
  (accepted.1, accepted.2 ++ (msgs.map (webSocketMessage w)).flatten)

/-- Field access on a JSON object, for stating envelope properties. -/
def jsonField (j : Json) (key : String) : Option Json :=
  match j with
  | Json.obj fs => fieldLookup fs key
  | _ => none

/-- Field access inside the `error` member of an envelope. -/
def errField (j : Json) (key : String) : Option Json :=
  match jsonField j "error" with
  | some e => jsonField e key
  | _ => none

/-- Auxiliary substring scan over character lists. -/
def strContainsAux (pat : List Char) : List Char → Bool
  | [] => pat.isEmpty
  | c :: rest => pat.isPrefixOf (c :: rest) || strContainsAux pat rest

/-- Substring test (true iff `pat` occurs inside `s`), used to state the
spec's "message contains ..." phrasing. -/
def strContains (s pat : String) : Bool :=
  strContainsAux pat.toList s.toList

/-- A fixed ambient world used by the concrete witnesses and
counterexamples: some timestamp, and the `Math.random()` draw 1/2. -/
def w0 : World := ⟨"2024-01-01T00:00:00.000Z", mkRat 1 2⟩

/-- Sanity checks of the embedded `JSON.parse` on atoms, documents,
leading zeros, scientific notation, and the coerced binary frame. -/
theorem jsonParse_sanity :
    jsonParse "null" = some Json.null ∧
    jsonParse " \x7b\"a\": [1, true, \"x\"]\x7d " =
      some (Json.obj [("a", Json.arr [Json.num 1, Json.bool true, Json.str "x"])]) ∧
    jsonParse "01" = none ∧
    jsonParse "-2.5e1" = some (Json.num (-25)) ∧
    jsonParse "[object ArrayBuffer]" = none :=
  ⟨rfl, rfl, rfl, rfl, rfl⟩

/-- Sanity checks of the substring test and the SSE frame shape. -/
theorem strContains_and_sseFrame_sanity :
    strContains "Internal error" "error" = true ∧
    strContains "Internal error" "Unknown tool: nope" = false ∧
    sseFrame (Json.obj [("a", Json.num 1)]) = "data: \x7b\"a\":1\x7d\n\n" :=
  ⟨rfl, rfl, rfl⟩

/-- Rendering an integral rational matches rendering the integer. -/
theorem numToString_intCast (m : ℤ) : numToString (m : ℚ) = toString m := by
  unfold numToString
  rw [Rat.den_intCast, Rat.num_intCast]
  simp

/-- The catch-branch id recovery only throws (returns `none`) on the JSON
value `null`. -/
theorem recoverId_of_ne_null (j : Json) (h : j ≠ Json.null) :
    ∃ idv, recoverId j = some idv := by
  cases j with
  | null => exact absurd rfl h
  | bool b => exact ⟨Json.null, rfl⟩
  | num q => exact ⟨_, rfl⟩
  | str s => exact ⟨_, rfl⟩
  | arr xs => exact ⟨Json.null, rfl⟩
  | obj fs => exact ⟨_, rfl⟩

/-- C7: for every string `s`, calling the `echo` tool via `tools/call`
with arguments `(text: s)` returns a result of shape
`(content: [(type: "text", text: "Echo: " ++ s)])`; the handler-level
output and the full dispatcher-level response envelope are both stated,
and the shape of `toolTextResult` is spelled out. -/
theorem echo_returns_prefixed_text (w : World) (s : String) :
    callToolHandler w "echo" (some (Json.obj [("text", Json.str s)])) =
      Except.ok (toolTextResult ("Echo: " ++ s)) ∧
    handleRequest w (Json.obj [("jsonrpc", Json.str "2.0"), ("id", Json.num 1),
        ("method", Json.str "tools/call"),
        ("params", Json.obj [("name", Json.str "echo"),
          ("arguments", Json.obj [("text", Json.str s)])])]) =
      Except.ok (some (Json.obj [("jsonrpc", Json.str "2.0"), ("id", Json.num 1),
        ("result", toolTextResult ("Echo: " ++ s))])) ∧
    toolTextResult ("Echo: " ++ s) =
      Json.obj [("content", Json.arr [Json.obj [("type", Json.str "text"),
        ("text", Json.str ("Echo: " ++ s))]])] ∧
    callToolHandler w "echo" (some (Json.obj [("text", Json.str "Hello, MCP!")])) =
      Except.ok (toolTextResult "Echo: Hello, MCP!") :=
  ⟨rfl, rfl, rfl, rfl⟩

/-- C9: every non-string (binary) WebSocket frame makes the handler close
the connection with code 1011 and reason "Internal error", and no error
envelope (indeed no `send` at all) is produced, because the fallback
`JSON.parse` of the coerced frame (`"[object ArrayBuffer]"`) always
fails. -/
theorem binary_frame_closes_connection (w : World) (data : List Nat) :
    webSocketMessage w (WsFrame.binary data) = [WsOut.close 1011 "Internal error"] ∧
    jsonParse (frameToString (WsFrame.binary data)) = none ∧
    ∀ r, WsOut.send r ∉ webSocketMessage w (WsFrame.binary data) := by
  refine ⟨rfl, rfl, fun r hr => ?_⟩
  have : webSocketMessage w (WsFrame.binary data) = [WsOut.close 1011 "Internal error"] := rfl
  rw [this] at hr
  simp at hr

/-- C8: the `Open -> Closed` transitions are terminal and idempotent:
`webSocketClose` and `webSocketError` both just erase the connection from
the session set, erasing twice (in any combination) equals erasing once,
and erasing a connection that is no longer in the set is a no-op. -/
theorem close_transitions_idempotent (s : Finset ℕ) (ws : ℕ) (c c2 : Nat)
    (r r2 e e2 : String) :
    webSocketClose (webSocketClose s ws c r) ws c2 r2 = webSocketClose s ws c r ∧
    webSocketError (webSocketError s ws e) ws e2 = webSocketError s ws e ∧
    webSocketError (webSocketClose s ws c r) ws e = webSocketClose s ws c r ∧
    webSocketClose (webSocketError s ws e) ws c r = webSocketError s ws e ∧
    (ws ∉ s → webSocketClose s ws c r = s ∧ webSocketError s ws e = s) :=
  ⟨Finset.erase_idem, Finset.erase_idem, Finset.erase_idem, Finset.erase_idem,
    fun h => ⟨Finset.erase_eq_of_not_mem h, Finset.erase_eq_of_not_mem h⟩⟩

/-- C8 witness: applied at the empty session set and connection 1. -/
theorem close_transitions_idempotent_witness :
    (1 : ℕ) ∉ (∅ : Finset ℕ) ∧
    (webSocketClose ∅ 1 1000 "bye" = ∅ ∧ webSocketError ∅ 1 "err" = ∅) :=
  ⟨by decide,
    (close_transitions_idempotent ∅ 1 1000 1001 "bye" "bye2" "err" "err2").2.2.2.2 (by decide)⟩

/-- C6: `acceptWebSocket` adds the connection to the open set and pushes
exactly one outbound frame, the `notifications/initialized` notification;
in a whole conversation this frame precedes every frame produced by
client messages. -/
theorem accept_sends_single_init_first (w : World) (sessions : Finset ℕ) (ws : ℕ)
    (msgs : List WsFrame) :
    (acceptWebSocket sessions ws).1 = insert ws sessions ∧
    ws ∈ (acceptWebSocket sessions ws).1 ∧
    (acceptWebSocket sessions ws).2 = [WsOut.send initializedMsg] ∧
    jsonField initializedMsg "method" = some (Json.str "notifications/initialized") ∧
    (runConnection w sessions ws msgs).2 =
      WsOut.send initializedMsg :: (msgs.map (webSocketMessage w)).flatten :=
  ⟨rfl, Finset.mem_insert_self ws sessions, rfl, rfl, rfl⟩

/-- C2: a notification (request envelope whose `id` is absent or null)
never produces a response envelope: the WebSocket handler sends no frame
back, and the HTTP-streamable handler writes no data frame to the
stream. -/
theorem notification_no_response (w : World) (s : String) (fs : List (String × Json))
    (hparse : jsonParse s = some (Json.obj fs))
    (hid : fieldLookup fs "id" = none ∨ fieldLookup fs "id" = some Json.null) :
    webSocketMessage w (WsFrame.text s) = [] ∧
    httpMcpPost w s = HttpOut.stream [] true := by
  have hreq : handleRequest w (Json.obj fs) = Except.ok none := by
    rcases hid with h | h <;> simp only [handleRequest, h]
  constructor
  · simp only [webSocketMessage, hparse, hreq]
  · simp only [httpMcpPost, hparse, hreq]

/-- C2 witness: a concrete `notifications/cancelled` notification. -/
theorem notification_no_response_witness :
    jsonParse "\x7b\"jsonrpc\":\"2.0\",\"method\":\"notifications/cancelled\"\x7d" =
      some (Json.obj [("jsonrpc", Json.str "2.0"),
        ("method", Json.str "notifications/cancelled")]) ∧
    webSocketMessage w0
      (WsFrame.text "\x7b\"jsonrpc\":\"2.0\",\"method\":\"notifications/cancelled\"\x7d") = [] :=
  ⟨rfl, (notification_no_response w0
      "\x7b\"jsonrpc\":\"2.0\",\"method\":\"notifications/cancelled\"\x7d"
      [("jsonrpc", Json.str "2.0"), ("method", Json.str "notifications/cancelled")]
      rfl (Or.inl rfl)).1⟩

/-- C5: a single POST to `/mcp` yields at most one event frame, each
frame is exactly `data: <JSON>\n\n`, the stream is closed after it, and a
parse or handler fault instead yields HTTP 500 with a plain JSON
error-envelope body (no stream). -/
theorem http_post_single_frame (w : World) (body : String) (frames : List String)
    (closed : Bool) (st : Nat) (b : Json) :
    (httpMcpPost w body = HttpOut.stream frames closed →
      frames.length ≤ 1 ∧ closed = true ∧ ∀ f ∈ frames, ∃ j, f = sseFrame j) ∧
    (httpMcpPost w body = HttpOut.errorResponse st b →
      st = 500 ∧ ∃ d, b = errorEnvelope Json.null d) := by
  cases hp : jsonParse body with
  | none =>
    have hEq : httpMcpPost w body =
        HttpOut.errorResponse 500 (errorEnvelope Json.null "Unexpected token in JSON") := by
      simp only [httpMcpPost, hp]
    rw [hEq]
    refine ⟨fun h => absurd h (by simp), fun h => ?_⟩
    obtain ⟨h1, h2⟩ := HttpOut.errorResponse.inj h
    exact ⟨h1.symm, "Unexpected token in JSON", h2.symm⟩
  | some j =>
    cases hr : handleRequest w j with
    | error e =>
      have hEq : httpMcpPost w body = HttpOut.errorResponse 500 (errorEnvelope Json.null e) := by
        simp only [httpMcpPost, hp, hr]
      rw [hEq]
      refine ⟨fun h => absurd h (by simp), fun h => ?_⟩
      obtain ⟨h1, h2⟩ := HttpOut.errorResponse.inj h
      exact ⟨h1.symm, e, h2.symm⟩
    | ok o =>
      cases o with
      | none =>
        have hEq : httpMcpPost w body = HttpOut.stream [] true := by
          simp only [httpMcpPost, hp, hr]
        rw [hEq]
        refine ⟨fun h => ?_, fun h => absurd h (by simp)⟩
        obtain ⟨h1, h2⟩ := HttpOut.stream.inj h
        subst h1 h2
        simp
      | some resp =>
        have hEq : httpMcpPost w body = HttpOut.stream [sseFrame resp] true := by
          simp only [httpMcpPost, hp, hr]
        rw [hEq]
        refine ⟨fun h => ?_, fun h => absurd h (by simp)⟩
        obtain ⟨h1, h2⟩ := HttpOut.stream.inj h
        subst h1 h2
        refine ⟨by simp, rfl, ?_⟩
        intro f hf
        simp only [List.mem_singleton] at hf
        exact ⟨resp, hf⟩

/-- C5 witness: a concrete echo request producing exactly one frame. -/
theorem http_post_single_frame_witness :
    httpMcpPost w0 "\x7b\"jsonrpc\":\"2.0\",\"id\":1,\"method\":\"tools/call\",\"params\":\x7b\"name\":\"echo\",\"arguments\":\x7b\"text\":\"hi\"\x7d\x7d\x7d" =
      HttpOut.stream [sseFrame (Json.obj [("jsonrpc", Json.str "2.0"), ("id", Json.num 1),
        ("result", toolTextResult "Echo: hi")])] true ∧
    ([sseFrame (Json.obj [("jsonrpc", Json.str "2.0"), ("id", Json.num 1),
        ("result", toolTextResult "Echo: hi")])].length ≤ 1 ∧ true = true ∧
      ∀ f ∈ [sseFrame (Json.obj [("jsonrpc", Json.str "2.0"), ("id", Json.num 1),
        ("result", toolTextResult "Echo: hi")])], ∃ j, f = sseFrame j) :=
  ⟨rfl, (http_post_single_frame w0
      "\x7b\"jsonrpc\":\"2.0\",\"id\":1,\"method\":\"tools/call\",\"params\":\x7b\"name\":\"echo\",\"arguments\":\x7b\"text\":\"hi\"\x7d\x7d\x7d"
      [sseFrame (Json.obj [("jsonrpc", Json.str "2.0"), ("id", Json.num 1),
        ("result", toolTextResult "Echo: hi")])] true 500 Json.null).1 rfl⟩

/-- C3: the `random_number` tool computes
`floor(u * (max - min + 1)) + min` where `u` is the `Math.random()` draw
in `[0, 1)`; with `min = max = 5` the produced text is always
"Random number between 5 and 5: 5", and with `min = 1, max = 10` the
produced integer is always between 1 and 10. -/
theorem random_number_formula_and_range (w : World) (h0 : 0 ≤ w.rand) (h1 : w.rand < 1) :
    (∀ mn mx u : ℚ, randomNumber mn mx u = (⌊u * (mx - mn + 1)⌋ : ℚ) + mn) ∧
    callToolHandler w "random_number"
        (some (Json.obj [("min", Json.num 5), ("max", Json.num 5)])) =
      Except.ok (toolTextResult "Random number between 5 and 5: 5") ∧
    (∃ k : ℤ, 1 ≤ k ∧ k ≤ 10 ∧
      callToolHandler w "random_number"
          (some (Json.obj [("min", Json.num 1), ("max", Json.num 10)])) =
        Except.ok (toolTextResult ("Random number between 1 and 10: " ++ toString k))) := by
  refine ⟨fun mn mx u => rfl, ?_, ?_⟩
  · have h55 : randomNumber 5 5 w.rand = 5 := by
      unfold randomNumber
      have he : (5 : ℚ) - 5 + 1 = 1 := by norm_num
      rw [he, mul_one, Int.floor_eq_zero_iff.mpr (Set.mem_Ico.mpr ⟨h0, h1⟩)]
      norm_num
    have hred : callToolHandler w "random_number"
        (some (Json.obj [("min", Json.num 5), ("max", Json.num 5)])) =
        Except.ok (toolTextResult ("Random number between " ++ numToString 5 ++ " and " ++
          numToString 5 ++ ": " ++ numToString (randomNumber 5 5 w.rand))) := rfl
    rw [hred, h55]
    rfl
  · refine ⟨⌊w.rand * 10⌋ + 1, ?_, ?_, ?_⟩
    · have : 0 ≤ ⌊w.rand * 10⌋ := Int.floor_nonneg.mpr (by positivity)
      omega
    · have : ⌊w.rand * 10⌋ < 10 := by
        rw [Int.floor_lt]
        push_cast
        nlinarith
      omega
    · have hval : randomNumber 1 10 w.rand = ((⌊w.rand * 10⌋ + 1 : ℤ) : ℚ) := by
        unfold randomNumber
        have he : (10 : ℚ) - 1 + 1 = 10 := by norm_num
        rw [he]
        push_cast
        ring
      have hred : callToolHandler w "random_number"
          (some (Json.obj [("min", Json.num 1), ("max", Json.num 10)])) =
          Except.ok (toolTextResult ("Random number between " ++ numToString 1 ++ " and " ++
            numToString 10 ++ ": " ++ numToString (randomNumber 1 10 w.rand))) := rfl
      rw [hred, hval, numToString_intCast]
      rfl

/-- C1 counterexample: `tools/call` with the unregistered name "nope"
produces an error envelope whose `message` field is the fixed string
"Internal error", which does NOT contain "Unknown tool: nope" (the
offending name ends up in the `data` field instead). -/
theorem unknown_tool_name_not_in_message :
    webSocketMessage w0 (WsFrame.text "\x7b\"jsonrpc\":\"2.0\",\"id\":1,\"method\":\"tools/call\",\"params\":\x7b\"name\":\"nope\",\"arguments\":\x7b\x7d\x7d\x7d") =
      [WsOut.send (errorEnvelope (Json.num 1) "Unknown tool: nope")] ∧
    errField (errorEnvelope (Json.num 1) "Unknown tool: nope") "message" =
      some (Json.str "Internal error") ∧
    strContains "Internal error" "Unknown tool: nope" = false ∧
    errField (errorEnvelope (Json.num 1) "Unknown tool: nope") "data" =
      some (Json.str "Unknown tool: nope") :=
  ⟨rfl, rfl, rfl, rfl⟩

/-- C1 (amended): a `tools/call`, `resources/read` or `prompts/get`
request naming an unregistered capability faults with
"Unknown tool/resource/prompt: <name>", and the transports surface this
as an error envelope with code -32603 whose `message` field is
"Internal error" and whose `data` field carries the offending name in
the form "Unknown tool: <name>" (so the name is embedded in the
serialized envelope, but not in its `message` field). -/
theorem unknown_capability_error_envelope
    (w : World) (n uri pn : String) (s : String)
    (hn1 : n ≠ "echo") (hn2 : n ≠ "get_time") (hn3 : n ≠ "random_number")
    (hu1 : uri ≠ "cloudflare://worker-info") (hu2 : uri ≠ "cloudflare://sample-data")
    (hp1 : pn ≠ "explain_code") (hp2 : pn ≠ "debug_help")
    (hs : jsonParse s = some (Json.obj [("jsonrpc", Json.str "2.0"), ("id", Json.num 1),
      ("method", Json.str "tools/call"),
      ("params", Json.obj [("name", Json.str n), ("arguments", Json.obj [])])])) :
    handleRequest w (Json.obj [("jsonrpc", Json.str "2.0"), ("id", Json.num 1),
        ("method", Json.str "tools/call"),
        ("params", Json.obj [("name", Json.str n), ("arguments", Json.obj [])])]) =
      Except.error ("Unknown tool: " ++ n) ∧
    handleRequest w (Json.obj [("jsonrpc", Json.str "2.0"), ("id", Json.num 1),
        ("method", Json.str "resources/read"),
        ("params", Json.obj [("uri", Json.str uri)])]) =
      Except.error ("Unknown resource: " ++ uri) ∧
    handleRequest w (Json.obj [("jsonrpc", Json.str "2.0"), ("id", Json.num 1),
        ("method", Json.str "prompts/get"),
        ("params", Json.obj [("name", Json.str pn), ("arguments", Json.obj [])])]) =
      Except.error ("Unknown prompt: " ++ pn) ∧
    webSocketMessage w (WsFrame.text s) =
      [WsOut.send (errorEnvelope (Json.num 1) ("Unknown tool: " ++ n))] ∧
    httpMcpPost w s =
      HttpOut.errorResponse 500 (errorEnvelope Json.null ("Unknown tool: " ++ n)) ∧
    errField (errorEnvelope (Json.num 1) ("Unknown tool: " ++ n)) "code" =
      some (Json.num (-32603)) ∧
    errField (errorEnvelope (Json.num 1) ("Unknown tool: " ++ n)) "message" =
      some (Json.str "Internal error") ∧
    errField (errorEnvelope (Json.num 1) ("Unknown tool: " ++ n)) "data" =
      some (Json.str ("Unknown tool: " ++ n)) := by
  have htool : callToolHandler w n (some (Json.obj [])) =
      Except.error ("Unknown tool: " ++ n) := by
    unfold callToolHandler
    rw [if_neg hn1, if_neg hn2, if_neg hn3]
  have hres : readResourceHandler w uri = Except.error ("Unknown resource: " ++ uri) := by
    unfold readResourceHandler
    rw [if_neg hu1, if_neg hu2]
  have hpr : getPromptHandler pn (some (Json.obj [])) =
      Except.error ("Unknown prompt: " ++ pn) := by
    unfold getPromptHandler
    rw [if_neg hp1, if_neg hp2]
  have h1 : handleRequest w (Json.obj [("jsonrpc", Json.str "2.0"), ("id", Json.num 1),
      ("method", Json.str "tools/call"),
      ("params", Json.obj [("name", Json.str n), ("arguments", Json.obj [])])]) =
      match callToolHandler w n (some (Json.obj [])) with
      | Except.ok result => Except.ok (some (Json.obj [("jsonrpc", Json.str "2.0"),
          ("id", Json.num 1), ("result", result)]))
      | Except.error e => Except.error e := rfl
  have h2 : handleRequest w (Json.obj [("jsonrpc", Json.str "2.0"), ("id", Json.num 1),
      ("method", Json.str "resources/read"),
      ("params", Json.obj [("uri", Json.str uri)])]) =
      match readResourceHandler w uri with
      | Except.ok result => Except.ok (some (Json.obj [("jsonrpc", Json.str "2.0"),
          ("id", Json.num 1), ("result", result)]))
      | Except.error e => Except.error e := rfl
  have h3 : handleRequest w (Json.obj [("jsonrpc", Json.str "2.0"), ("id", Json.num 1),
      ("method", Json.str "prompts/get"),
      ("params", Json.obj [("name", Json.str pn), ("arguments", Json.obj [])])]) =
      match getPromptHandler pn (some (Json.obj [])) with
      | Except.ok result => Except.ok (some (Json.obj [("jsonrpc", Json.str "2.0"),
          ("id", Json.num 1), ("result", result)]))
      | Except.error e => Except.error e := rfl
  have hreq1 : handleRequest w (Json.obj [("jsonrpc", Json.str "2.0"), ("id", Json.num 1),
      ("method", Json.str "tools/call"),
      ("params", Json.obj [("name", Json.str n), ("arguments", Json.obj [])])]) =
      Except.error ("Unknown tool: " ++ n) := by
    rw [h1, htool]
  have hreq2 : handleRequest w (Json.obj [("jsonrpc", Json.str "2.0"), ("id", Json.num 1),
      ("method", Json.str "resources/read"),
      ("params", Json.obj [("uri", Json.str uri)])]) =
      Except.error ("Unknown resource: " ++ uri) := by
    rw [h2, hres]
  have hreq3 : handleRequest w (Json.obj [("jsonrpc", Json.str "2.0"), ("id", Json.num 1),
      ("method", Json.str "prompts/get"),
      ("params", Json.obj [("name", Json.str pn), ("arguments", Json.obj [])])]) =
      Except.error ("Unknown prompt: " ++ pn) := by
    rw [h3, hpr]
  refine ⟨hreq1, hreq2, hreq3, ?_, ?_, rfl, rfl, rfl⟩
  · simp only [webSocketMessage, hs, hreq1, frameToString, recoverId, fieldLookup,
      List.foldl, jsTruthy]
    simp
  · simp only [httpMcpPost, hs, hreq1]

/-- C1 witness: applied at the unregistered names "nope", "u", "p". -/
theorem unknown_capability_error_envelope_witness :
    ("nope" : String) ≠ "echo" ∧
    jsonParse "\x7b\"jsonrpc\":\"2.0\",\"id\":1,\"method\":\"tools/call\",\"params\":\x7b\"name\":\"nope\",\"arguments\":\x7b\x7d\x7d\x7d" =
      some (Json.obj [("jsonrpc", Json.str "2.0"), ("id", Json.num 1),
        ("method", Json.str "tools/call"),
        ("params", Json.obj [("name", Json.str "nope"), ("arguments", Json.obj [])])]) ∧
    httpMcpPost w0 "\x7b\"jsonrpc\":\"2.0\",\"id\":1,\"method\":\"tools/call\",\"params\":\x7b\"name\":\"nope\",\"arguments\":\x7b\x7d\x7d\x7d" =
      HttpOut.errorResponse 500 (errorEnvelope Json.null "Unknown tool: nope") :=
  ⟨by decide, rfl,
    (unknown_capability_error_envelope w0 "nope" "u" "p"
      "\x7b\"jsonrpc\":\"2.0\",\"id\":1,\"method\":\"tools/call\",\"params\":\x7b\"name\":\"nope\",\"arguments\":\x7b\x7d\x7d\x7d"
      (by decide) (by decide) (by decide) (by decide) (by decide) (by decide) (by decide)
      rfl).2.2.2.2.1⟩

/-- C4: a faulting WebSocket request whose id is the recoverable value 0
is answered with an error envelope whose `id` is `null`, not `0`: the
recovery expression `parsedMessage.id || null` treats the falsy id `0`
as absent.  (Evaluation of the code at the failing input; the claim
says the id should have been echoed as `0`.) -/
theorem ws_error_id_zero_replaced_by_null :
    jsonParse "\x7b\"jsonrpc\":\"2.0\",\"id\":0,\"method\":\"tools/call\",\"params\":\x7b\"name\":\"nope\",\"arguments\":\x7b\x7d\x7d\x7d" =
      some (Json.obj [("jsonrpc", Json.str "2.0"), ("id", Json.num 0),
        ("method", Json.str "tools/call"),
        ("params", Json.obj [("name", Json.str "nope"), ("arguments", Json.obj [])])]) ∧
    webSocketMessage w0 (WsFrame.text "\x7b\"jsonrpc\":\"2.0\",\"id\":0,\"method\":\"tools/call\",\"params\":\x7b\"name\":\"nope\",\"arguments\":\x7b\x7d\x7d\x7d") =
      [WsOut.send (errorEnvelope Json.null "Unknown tool: nope")] ∧
    Json.null ≠ Json.num 0 :=
  ⟨rfl, rfl, fun h => Json.noConfusion h⟩

/-- C10 counterexample: the string "null" is parseable as JSON, yet a
fault while handling it makes `webSocketMessage` close the connection:
the fallback re-parse succeeds but the id recovery
`parsedMessage.id || null` itself throws on the JSON value `null`. -/
theorem parseable_null_frame_closes :
    jsonParse "null" = some Json.null ∧
    webSocketMessage w0 (WsFrame.text "null") = [WsOut.close 1011 "Internal error"] :=
  ⟨rfl, rfl⟩

/-- C10 (amended): for every string frame that parses to a JSON value
other than `null`, `webSocketMessage` never closes the connection: a
fault is answered by an error envelope sent over the still-open
connection, because the fallback re-parse of the same string succeeds
and the id recovery cannot throw. -/
theorem parseable_frame_never_closes (w : World) (s : String) (j : Json)
    (hparse : jsonParse s = some j) (hnn : j ≠ Json.null) :
    (∀ c r, WsOut.close c r ∉ webSocketMessage w (WsFrame.text s)) ∧
    (∀ e, handleRequest w j = Except.error e →
      ∃ idv, recoverId j = some idv ∧
        webSocketMessage w (WsFrame.text s) = [WsOut.send (errorEnvelope idv e)]) := by
  obtain ⟨idv, hidv⟩ := recoverId_of_ne_null j hnn
  have hcases : ∀ e, handleRequest w j = Except.error e →
      webSocketMessage w (WsFrame.text s) = [WsOut.send (errorEnvelope idv e)] := by
    intro e he
    simp only [webSocketMessage, hparse, he, frameToString, hidv]
  constructor
  · intro c r hmem
    cases hr : handleRequest w j with
    | error e =>
      rw [hcases e hr] at hmem
      simp at hmem
    | ok o =>
      cases o with
      | none =>
        have hws : webSocketMessage w (WsFrame.text s) = [] := by
          simp only [webSocketMessage, hparse, hr]
        rw [hws] at hmem
        simp at hmem
      | some resp =>
        have hws : webSocketMessage w (WsFrame.text s) = [WsOut.send resp] := by
          simp only [webSocketMessage, hparse, hr]
        rw [hws] at hmem
        simp at hmem
  · intro e he
    exact ⟨idv, hidv, hcases e he⟩

/-- C10 witness: the frame "0" parses to a non-null JSON value, and its
handling never closes the connection. -/
theorem parseable_frame_never_closes_witness :
    jsonParse "0" = some (Json.num 0) ∧ Json.num 0 ≠ Json.null ∧
    WsOut.close 1011 "Internal error" ∉ webSocketMessage w0 (WsFrame.text "0") :=
  ⟨rfl, fun h => Json.noConfusion h,
    (parseable_frame_never_closes w0 "0" (Json.num 0) rfl
      (fun h => Json.noConfusion h)).1 1011 "Internal error"⟩

/-- C3 witness: applied at the concrete draw `u = 1/2`. -/
theorem random_number_formula_and_range_witness :
    0 ≤ w0.rand ∧ w0.rand < 1 ∧
    callToolHandler w0 "random_number"
        (some (Json.obj [("min", Json.num 5), ("max", Json.num 5)])) =
      Except.ok (toolTextResult "Random number between 5 and 5: 5") :=
  ⟨by decide, by decide,
    (random_number_formula_and_range w0 (by decide) (by decide)).2.1⟩

end MCP
